import Mathlib

/-!
Shallow embedding of `cosmic_var.py` (Cosmic-Variance-Cookbook-Python).

The source has two functions, `calc_COSMOS_cosmic_variance` and
`get_cosmic_variance_array`.  Python floats are modelled as exact
rationals wherever the code only compares, rounds or table-looks-up
them (the mass keys and the bucketing arithmetic), and as real numbers
in the variance formula (`**` on a positive base is `Real.rpow`,
`np.sqrt` is `Real.sqrt`).  `round` is Python's round-half-to-even at a
given number of decimal digits, `%` and `//` are Python's floating
modulus and floor division, all taken at exact rational values.  On the
quarter-integer grid that the table keys live on, every intermediate of
the bucketing code is a dyadic rational exactly representable in IEEE
double, and the half-to-even ties occur at exactly representable
points, so the rational model agrees with a double-precision run of the
source there.  A Python exception (unknown survey leaving the fit
parameters unbound, or subtracting a string key) is modelled by
`Option.none`.
-/

/-- Python `round(x, n)` on an exact rational: round half to even at
`n` decimal digits, as an integer scaled by `10 ^ n`. -/
def roundHalfEven (y : ℚ) : ℤ :=
  if y - ⌊y⌋ < 1/2 then ⌊y⌋
  else if 1/2 < y - ⌊y⌋ then ⌊y⌋ + 1
  else if ⌊y⌋ % 2 = 0 then ⌊y⌋ else ⌊y⌋ + 1

/-- Python `round(x, n)` as a rational. -/
def pyRound (x : ℚ) (n : ℕ) : ℚ :=
  (roundHalfEven (x * 10 ^ n) : ℚ) / 10 ^ n

/-- Python `x % y` (sign of the divisor; all uses here have `y > 0`). -/
def pyMod (x y : ℚ) : ℚ := x - y * ⌊x / y⌋

/-- Python `x // y` (floor division, as a number). -/
def pyFloorDiv (x y : ℚ) : ℚ := (⌊x / y⌋ : ℚ)

/-- A key of the galaxy-bias table: the Python dict mixes float keys
(numeric bin centres) and string keys (threshold labels). -/
inductive MassKey where
  | num (m : ℚ)
  | thr (s : String)
deriving DecidableEq

/-- The string key the array code substitutes for masses above 11.25. -/
def thresholdLabel : String := ">11.0"

/-- The default value of the `survey` parameter of both functions. -/
def defaultSurvey : String := "COSMOS"

/-- Lines 26-38 of the source: the survey if/elif chain (Table 3).  An
unrecognised survey only prints a message and leaves
`sigma_a, sigma_b, beta` unbound, so the call raises before returning a
value: modelled as `none`. -/
def survey_fit_parameters (survey : String) : Option (ℚ × ℚ × ℚ) :=
  if survey = "UDF" then some (0.251, 0.364, 0.358)
  else if survey = "GOODS" then some (0.261, 0.854, 0.684)
  else if survey = "GEMS" then some (0.161, 0.520, 0.729)
  else if survey = "EGS" then some (0.128, 0.383, 0.673)
  else if survey = "COSMOS" then some (0.069, 0.234, 0.834)
  else none

/-- Lines 53-66: the galaxy-bias fit-parameter table (Table 4), with
six float keys and six threshold string keys. -/
def dict_galaxy_bias_fit_parameters (k : MassKey) : Option (ℚ × ℚ × ℚ) :=
  match k with
  | MassKey.num m =>
    if m = 8.75 then some (0.062, 2.59, 1.025)
    else if m = 9.25 then some (0.074, 2.58, 1.039)
    else if m = 9.75 then some (0.042, 3.17, 1.147)
    else if m = 10.25 then some (0.053, 3.07, 1.225)
    else if m = 10.75 then some (0.069, 3.19, 1.269)
    else if m = 11.25 then some (0.173, 2.89, 1.438)
    else none
  | MassKey.thr s =>
    if s = ">8.5" then some (0.063, 2.62, 1.104)
    else if s = ">9.0" then some (0.085, 2.50, 1.098)
    else if s = ">9.5" then some (0.058, 2.96, 1.192)
    else if s = ">10.0" then some (0.072, 2.90, 1.257)
    else if s = ">10.5" then some (0.093, 3.02, 1.332)
    else if s = ">11.0" then some (0.185, 2.86, 1.448)
    else none

/-- The float keys of the table, in dict insertion order (lines 71-78:
the restricted dict used by the nearest-key search). -/
def float_keys : List ℚ := [8.75, 9.25, 9.75, 10.25, 10.75, 11.25]

/-- Line 79: `min(keys, key=lambda x: abs(x - log_m_stellar + 0.001))`.
Python `min` keeps the first element attaining the minimum, i.e. a left
fold that only replaces the incumbent on a strict improvement. -/
def nearest_float_key (m : ℚ) : ℚ :=
  float_keys.foldl
    (fun best x => if |x - m + 1/1000| < |best - m + 1/1000| then x else best)
    8.75

/-- Lines 68-81: if the key is absent from the table, print a warning
and fall back to the closest float key.  The fallback arithmetic
`x - log_m_stellar` is only defined for a numeric key; a string key
that is absent from the table raises, i.e. `none`. -/
def resolve_mass_key (k : MassKey) : Option MassKey :=
  if (dict_galaxy_bias_fit_parameters k).isSome then some k
  else
    match k with
    | MassKey.num m => some (MassKey.num (nearest_float_key m))
    | MassKey.thr _ => none

/-- Lines 4-89: `calc_COSMOS_cosmic_variance(mean_z, delta_z,
log_m_stellar, survey="COSMOS")`.  Steps: survey lookup (eq. 10
parameters), `sigma_DM = sigma_a / (mean_z**beta + sigma_b)`, bias-key
resolution, `b = b_0 * (mean_z + 1)**b_1 + b_2` (eq. 13), and
`delta_gg = b * sigma_DM * sqrt(0.2 / delta_z)`. -/
noncomputable def calc_COSMOS_cosmic_variance (mean_z delta_z : ℝ)
    (log_m_stellar : MassKey) (survey : optParam String defaultSurvey) :
    Option ℝ :=
  (survey_fit_parameters survey).bind fun p =>
    (resolve_mass_key log_m_stellar).bind fun key =>
      (dict_galaxy_bias_fit_parameters key).map fun q =>
        ((q.1 : ℝ) * (mean_z + 1) ^ (q.2.1 : ℝ) + (q.2.2 : ℝ)) *
          ((p.1 : ℝ) / (mean_z ^ (p.2.2 : ℝ) + (p.2.1 : ℝ))) *
          Real.sqrt (0.2 / delta_z)

/-- Lines 111-119: the per-element rounding of
`get_cosmic_variance_array`.  First branch: `round(mass, 1)` is a
multiple of 0.5 (mod rounds to ≤ 0.0001), so nudge down a quarter
step.  Second branch: snap down to the 0.25 grid with `//`, then shift
up a quarter step if that landed on a multiple of 0.5.  (The source
also computes an unused `mod_` here.) -/
def bucketGrid (mass : ℚ) : ℚ :=
  if pyRound (pyMod (pyRound mass 1) (1/2)) 2 ≤ 1/10000 then
    pyRound (mass - 1/4) 2
  else
    let massRounded := pyFloorDiv mass (1/4) * (1/4)
    if pyRound (pyMod (pyRound massRounded 2) (1/2)) 2 ≤ 1/10000 then
      massRounded + 1/4
    else massRounded

/-- Lines 121-122: a bucketed mass above 11.25 becomes the threshold
string key `">11.0"`. -/
def bucketMass (mass : ℚ) : MassKey :=
  if bucketGrid mass > 11.25 then MassKey.thr thresholdLabel
  else MassKey.num (bucketGrid mass)

/-- The element-wise Option traversal of the array loop: the loop body
raises (propagates `none`) as soon as one element does. -/
def mapOptionList (f : ℚ → Option ℝ) : List ℚ → Option (List ℝ)
  | [] => some []
  | m :: rest =>
    (f m).bind fun v => (mapOptionList f rest).map fun vs => v :: vs

/-- Lines 91-127: `get_cosmic_variance_array(mean_z, delta_z,
mass_array, survey="COSMOS")`: bucket each mass, call
`calc_COSMOS_cosmic_variance` on it, collect the results in order. -/
noncomputable def get_cosmic_variance_array (mean_z delta_z : ℝ)
    (mass_array : List ℚ) (survey : optParam String defaultSurvey) :
    Option (List ℝ) :=
  mapOptionList
    (fun mass => calc_COSMOS_cosmic_variance mean_z delta_z (bucketMass mass) survey)
    mass_array

theorem roundHalfEven_intCast (n : ℤ) : roundHalfEven (n : ℚ) = n := by
  unfold roundHalfEven
  rw [Int.floor_intCast]
  norm_num

theorem roundHalfEven_int_add_half (n : ℤ) :
    roundHalfEven ((n : ℚ) + 1/2) = if n % 2 = 0 then n else n + 1 := by
  unfold roundHalfEven
  have hf : ⌊(n : ℚ) + 1/2⌋ = n := by
    rw [Int.floor_int_add]
    norm_num
  rw [hf]
  have harg : (n : ℚ) + 1/2 - n = 1/2 := by ring
  rw [harg]
  norm_num

/-- The bucketing arithmetic on the quarter-integer grid: a multiple
of 0.5 is nudged down a quarter step (first branch), any other
multiple of 0.25 is returned unchanged (second branch). -/
theorem bucketGrid_at_quarter (k : ℤ) :
    bucketGrid ((k : ℚ) / 4) =
      if k % 2 = 0 then ((k : ℚ) - 1) / 4 else (k : ℚ) / 4 := by
  by_cases hpar : k % 2 = 0
  · rw [if_pos hpar]
    obtain ⟨j, hj⟩ : ∃ j, k = 2 * j := ⟨k / 2, by omega⟩
    subst hj
    have h1 : pyRound (((2 * j : ℤ) : ℚ) / 4) 1 = ((j : ℤ) : ℚ) / 2 := by
      unfold pyRound
      have ha : ((2 * j : ℤ) : ℚ) / 4 * 10 ^ 1 = ((5 * j : ℤ) : ℚ) := by
        push_cast; ring
      rw [ha, roundHalfEven_intCast]
      push_cast; ring
    have h2 : pyMod (((j : ℤ) : ℚ) / 2) (1/2) = 0 := by
      unfold pyMod
      have ha : (((j : ℤ) : ℚ) / 2) / (1/2) = ((j : ℤ) : ℚ) := by ring
      rw [ha, Int.floor_intCast]
      ring
    have h3 : pyRound (0 : ℚ) 2 = 0 := by
      unfold pyRound
      have ha : (0 : ℚ) * 10 ^ 2 = ((0 : ℤ) : ℚ) := by norm_num
      rw [ha, roundHalfEven_intCast]
      norm_num
    have hcond : pyRound (pyMod (pyRound (((2 * j : ℤ) : ℚ) / 4) 1) (1/2)) 2 ≤ 1/10000 := by
      rw [h1, h2, h3]
      norm_num
    unfold bucketGrid
    rw [if_pos hcond]
    unfold pyRound
    have ha : (((2 * j : ℤ) : ℚ) / 4 - 1/4) * 10 ^ 2 = ((50 * j - 25 : ℤ) : ℚ) := by
      push_cast; ring
    rw [ha, roundHalfEven_intCast]
    push_cast; ring
  · rw [if_neg hpar]
    obtain ⟨j, hj⟩ : ∃ j, k = 2 * j + 1 := ⟨k / 2, by omega⟩
    subst hj
    obtain ⟨e, he01, hre⟩ : ∃ e : ℤ, (e = 0 ∨ e = 1) ∧
        roundHalfEven (((2 * j + 1 : ℤ) : ℚ) / 4 * 10 ^ 1) = 5 * j + 2 + e := by
      have ha : ((2 * j + 1 : ℤ) : ℚ) / 4 * 10 ^ 1 = ((5 * j + 2 : ℤ) : ℚ) + 1/2 := by
        push_cast; ring
      rw [ha, roundHalfEven_int_add_half]
      by_cases hp : (5 * j + 2) % 2 = 0
      · exact ⟨0, Or.inl rfl, by rw [if_pos hp]; ring⟩
      · exact ⟨1, Or.inr rfl, by rw [if_neg hp]⟩
    have h1 : pyRound (((2 * j + 1 : ℤ) : ℚ) / 4) 1 = ((5 * j + 2 + e : ℤ) : ℚ) / 10 := by
      unfold pyRound
      rw [hre]
      norm_num
    have hfl : ⌊(((5 * j + 2 + e : ℤ) : ℚ) / 10) / (1/2)⌋ = j := by
      have ha : (((5 * j + 2 + e : ℤ) : ℚ) / 10) / (1/2) = ((5 * j + 2 + e : ℤ) : ℚ) / 5 := by
        ring
      rw [ha, Int.floor_eq_iff]
      rcases he01 with rfl | rfl <;> constructor <;> push_cast <;> linarith
    have h2 : pyMod (((5 * j + 2 + e : ℤ) : ℚ) / 10) (1/2) = ((2 + e : ℤ) : ℚ) / 10 := by
      unfold pyMod
      rw [hfl]
      push_cast; ring
    have h3 : pyRound (((2 + e : ℤ) : ℚ) / 10) 2 = ((2 + e : ℤ) : ℚ) / 10 := by
      unfold pyRound
      have ha : ((2 + e : ℤ) : ℚ) / 10 * 10 ^ 2 = ((20 + 10 * e : ℤ) : ℚ) := by
        push_cast; ring
      rw [ha, roundHalfEven_intCast]
      push_cast; ring
    have hcond : ¬ pyRound (pyMod (pyRound (((2 * j + 1 : ℤ) : ℚ) / 4) 1) (1/2)) 2 ≤ 1/10000 := by
      rw [h1, h2, h3]
      rcases he01 with rfl | rfl <;> norm_num
    unfold bucketGrid
    rw [if_neg hcond]
    have hfd : pyFloorDiv (((2 * j + 1 : ℤ) : ℚ) / 4) (1/4) = ((2 * j + 1 : ℤ) : ℚ) := by
      unfold pyFloorDiv
      have ha : (((2 * j + 1 : ℤ) : ℚ) / 4) / (1/4) = ((2 * j + 1 : ℤ) : ℚ) := by ring
      rw [ha, Int.floor_intCast]
    have hmr : pyFloorDiv (((2 * j + 1 : ℤ) : ℚ) / 4) (1/4) * (1/4) =
        ((2 * j + 1 : ℤ) : ℚ) / 4 := by
      rw [hfd]; ring
    have h4 : pyRound (((2 * j + 1 : ℤ) : ℚ) / 4) 2 = ((2 * j + 1 : ℤ) : ℚ) / 4 := by
      unfold pyRound
      have ha : ((2 * j + 1 : ℤ) : ℚ) / 4 * 10 ^ 2 = ((50 * j + 25 : ℤ) : ℚ) := by
        push_cast; ring
      rw [ha, roundHalfEven_intCast]
      push_cast; ring
    have h5 : pyMod (((2 * j + 1 : ℤ) : ℚ) / 4) (1/2) = 1/4 := by
      unfold pyMod
      have ha : (((2 * j + 1 : ℤ) : ℚ) / 4) / (1/2) = ((j : ℤ) : ℚ) + 1/2 := by
        push_cast; ring
      rw [ha, Int.floor_int_add]
      have hb : ⌊(1/2 : ℚ)⌋ = 0 := by norm_num
      rw [hb]
      push_cast; ring
    have h6 : pyRound (1/4 : ℚ) 2 = 1/4 := by
      unfold pyRound
      have ha : (1/4 : ℚ) * 10 ^ 2 = ((25 : ℤ) : ℚ) := by norm_num
      rw [ha, roundHalfEven_intCast]
      norm_num
    simp only [hmr, h4, h5, h6]
    norm_num

/-- A key present in the bias table resolves to itself (the `not in`
test on line 68 fails, so the fallback is skipped). -/
theorem resolve_of_isSome {k : MassKey}
    (hk : (dict_galaxy_bias_fit_parameters k).isSome) :
    resolve_mass_key k = some k := by
  simp [resolve_mass_key, hk]

theorem resolve_of_mem {k : MassKey} {q : ℚ × ℚ × ℚ}
    (hq : dict_galaxy_bias_fit_parameters k = some q) :
    resolve_mass_key k = some k := by
  simp [resolve_mass_key, hq]

/-- Closed form of `calc_COSMOS_cosmic_variance` once all three lookups
succeed: equations (10) and (13) combined on line 87. -/
theorem calc_eq (z dz : ℝ) (k key : MassKey) (s : String) (p q : ℚ × ℚ × ℚ)
    (hs : survey_fit_parameters s = some p)
    (hr : resolve_mass_key k = some key)
    (hq : dict_galaxy_bias_fit_parameters key = some q) :
    calc_COSMOS_cosmic_variance z dz k s =
      some (((q.1 : ℝ) * (z + 1) ^ (q.2.1 : ℝ) + (q.2.2 : ℝ)) *
        ((p.1 : ℝ) / (z ^ (p.2.2 : ℝ) + (p.2.1 : ℝ))) * Real.sqrt (0.2 / dz)) := by
  simp [calc_COSMOS_cosmic_variance, hs, hr, hq]

/-- C1: for every recognized survey and every exact table-key mass, with
`meanRedshift = z` and `deltaRedshift = dz`, `varianceForMass` returns
exactly `(b0 * (z + 1) ^ b1 + b2) * (sigma_a / (z ^ beta + sigma_b)) *
sqrt(0.2 / dz)` with the table's parameters; in particular for
`survey = "COSMOS"`, `z = 1`, `dz = 0.2`, `logStellarMass = 9.75` it is
`(0.042 * 2 ^ 3.17 + 1.147) * (0.069 / (1 ^ 0.834 + 0.234)) *
sqrt(0.2 / 0.2)`. -/
theorem varianceForMass_closed_form (z dz : ℝ) (s : String) (p : ℚ × ℚ × ℚ)
    (hs : survey_fit_parameters s = some p) (k : MassKey) (q : ℚ × ℚ × ℚ)
    (hq : dict_galaxy_bias_fit_parameters k = some q) :
    calc_COSMOS_cosmic_variance z dz k s =
      some (((q.1 : ℝ) * (z + 1) ^ (q.2.1 : ℝ) + (q.2.2 : ℝ)) *
        ((p.1 : ℝ) / (z ^ (p.2.2 : ℝ) + (p.2.1 : ℝ))) * Real.sqrt (0.2 / dz)) :=
  calc_eq z dz k k s p q hs (resolve_of_mem hq) hq

/-- C1 witness: the COSMOS reference case of the spec, evaluated. -/
theorem varianceForMass_closed_form_witness :
    survey_fit_parameters "COSMOS" = some (0.069, 0.234, 0.834) ∧
    dict_galaxy_bias_fit_parameters (MassKey.num 9.75) = some (0.042, 3.17, 1.147) ∧
    calc_COSMOS_cosmic_variance 1 0.2 (MassKey.num 9.75) "COSMOS" =
      some ((((0.042 : ℚ) : ℝ) * ((1 : ℝ) + 1) ^ (((3.17 : ℚ)) : ℝ) + ((1.147 : ℚ) : ℝ)) *
        (((0.069 : ℚ) : ℝ) / ((1 : ℝ) ^ (((0.834 : ℚ)) : ℝ) + ((0.234 : ℚ) : ℝ))) *
        Real.sqrt (0.2 / 0.2)) :=
  ⟨rfl, by norm_num [dict_galaxy_bias_fit_parameters],
    varianceForMass_closed_form 1 0.2 "COSMOS" (0.069, 0.234, 0.834) rfl
      (MassKey.num 9.75) (0.042, 3.17, 1.147)
      (by norm_num [dict_galaxy_bias_fit_parameters])⟩

/-- C3: a survey string outside the five recognized labels yields no
fit parameters, and the call produces no numeric result (the Python
code prints a message and then raises on the unbound parameters,
modelled as `none`). -/
theorem varianceForMass_invalid_survey (s : String)
    (h : s ∉ (["UDF", "GOODS", "GEMS", "EGS", "COSMOS"] : List String)) :
    survey_fit_parameters s = none ∧
    ∀ (z dz : ℝ) (k : MassKey), calc_COSMOS_cosmic_variance z dz k s = none := by
  simp only [List.mem_cons, List.not_mem_nil, or_false, not_or] at h
  obtain ⟨h1, h2, h3, h4, h5⟩ := h
  have hs : survey_fit_parameters s = none := by
    simp [survey_fit_parameters, h1, h2, h3, h4, h5]
  exact ⟨hs, fun z dz k => by simp [calc_COSMOS_cosmic_variance, hs]⟩

/-- C3 witness: the spec's example `survey = "XYZ"`. -/
theorem varianceForMass_invalid_survey_witness :
    "XYZ" ∉ (["UDF", "GOODS", "GEMS", "EGS", "COSMOS"] : List String) ∧
    calc_COSMOS_cosmic_variance 1 0.2 (MassKey.num 9.75) "XYZ" = none :=
  ⟨by decide, (varianceForMass_invalid_survey "XYZ" (by decide)).2 1 0.2 (MassKey.num 9.75)⟩

/-- C4: for `logStellarMass = 9.5` the nearest-key fallback selects
9.25 (the `+ 0.001` epsilon makes `|9.25 - 9.5 + 0.001| = 0.249 <
0.251 = |9.75 - 9.5 + 0.001|`), so the call computes exactly what it
computes at 9.25. -/
theorem fallback_tie_break_at_9_5 :
    nearest_float_key 9.5 = 9.25 ∧
    resolve_mass_key (MassKey.num 9.5) = some (MassKey.num 9.25) ∧
    ∀ (z dz : ℝ) (s : String),
      calc_COSMOS_cosmic_variance z dz (MassKey.num 9.5) s =
        calc_COSMOS_cosmic_variance z dz (MassKey.num 9.25) s := by
  have h1 : nearest_float_key 9.5 = 9.25 := by
    norm_num [nearest_float_key, float_keys, List.foldl, abs]
  have hnone : dict_galaxy_bias_fit_parameters (MassKey.num 9.5) = none := by
    norm_num [dict_galaxy_bias_fit_parameters]
  have h2 : resolve_mass_key (MassKey.num 9.5) = some (MassKey.num 9.25) := by
    simp [resolve_mass_key, hnone, h1]
  have h3 : resolve_mass_key (MassKey.num 9.25) = some (MassKey.num 9.25) := by
    apply resolve_of_mem (q := (0.074, 2.58, 1.039))
    norm_num [dict_galaxy_bias_fit_parameters]
  exact ⟨h1, h2, fun z dz s => by simp [calc_COSMOS_cosmic_variance, h2, h3]⟩

/-- Every row of Table 3 has positive `sigma_a` and `sigma_b`. -/
theorem survey_fit_parameters_pos {s : String} {p : ℚ × ℚ × ℚ}
    (hs : survey_fit_parameters s = some p) : 0 < p.1 ∧ 0 < p.2.1 := by
  unfold survey_fit_parameters at hs
  split_ifs at hs <;>
    (simp only [Option.some.injEq] at hs) <;> subst hs <;> constructor <;> norm_num

/-- Every row of Table 4 has positive `b_0` and `b_2`. -/
theorem dict_galaxy_bias_pos {k : MassKey} {q : ℚ × ℚ × ℚ}
    (hq : dict_galaxy_bias_fit_parameters k = some q) : 0 < q.1 ∧ 0 < q.2.2 := by
  unfold dict_galaxy_bias_fit_parameters at hq
  cases k <;> (simp only [] at hq) <;> split_ifs at hq <;>
    (simp only [Option.some.injEq] at hq) <;> subst hq <;> constructor <;> norm_num

/-- Inversion: a numeric result of `calc_COSMOS_cosmic_variance`
determines successful survey, key resolution, and table lookups, and
has the closed form of line 87. -/
theorem calc_some_inv {z dz : ℝ} {k : MassKey} {s : String} {v : ℝ}
    (h : calc_COSMOS_cosmic_variance z dz k s = some v) :
    ∃ p key q, survey_fit_parameters s = some p ∧
      resolve_mass_key k = some key ∧
      dict_galaxy_bias_fit_parameters key = some q ∧
      v = ((q.1 : ℝ) * (z + 1) ^ (q.2.1 : ℝ) + (q.2.2 : ℝ)) *
        ((p.1 : ℝ) / (z ^ (p.2.2 : ℝ) + (p.2.1 : ℝ))) * Real.sqrt (0.2 / dz) := by
  unfold calc_COSMOS_cosmic_variance at h
  cases hp : survey_fit_parameters s with
  | none => rw [hp] at h; simp at h
  | some p =>
    rw [hp, Option.some_bind] at h
    cases hr : resolve_mass_key k with
    | none => rw [hr] at h; simp at h
    | some key =>
      rw [hr, Option.some_bind] at h
      cases hq : dict_galaxy_bias_fit_parameters key with
      | none => rw [hq] at h; simp at h
      | some q =>
        rw [hq] at h
        simp only [Option.map_some', Option.some.injEq] at h
        exact ⟨p, key, q, rfl, rfl, hq, h.symm⟩

/-- C9: holding `meanRedshift`, the mass key and the survey fixed at
valid values, the result is non-increasing in `deltaRedshift`, and
strictly decreasing when `deltaRedshift` strictly increases (the bias
and the dark-matter factors are positive and only
`sqrt(0.2 / deltaRedshift)` moves). -/
theorem varianceForMass_antitone_in_deltaRedshift (z dz1 dz2 : ℝ) (k : MassKey)
    (s : String) (v1 v2 : ℝ) (hz : 0 < z) (hdz1 : 0 < dz1) (hle : dz1 ≤ dz2)
    (h1 : calc_COSMOS_cosmic_variance z dz1 k s = some v1)
    (h2 : calc_COSMOS_cosmic_variance z dz2 k s = some v2) :
    v2 ≤ v1 ∧ (dz1 < dz2 → v2 < v1) := by
  obtain ⟨p, key, q, hp, hr, hq, hv1⟩ := calc_some_inv h1
  obtain ⟨p2, key2, q2, hp2, hr2, hq2, hv2⟩ := calc_some_inv h2
  rw [hp] at hp2; rw [hr] at hr2
  injection hp2 with hp2; injection hr2 with hr2
  subst hp2; subst hr2
  rw [hq] at hq2; injection hq2 with hq2; subst hq2
  obtain ⟨hb0, hb2⟩ := dict_galaxy_bias_pos hq
  obtain ⟨ha, hsb⟩ := survey_fit_parameters_pos hp
  have hb0r : (0 : ℝ) < (q.1 : ℝ) := by exact_mod_cast hb0
  have hb2r : (0 : ℝ) < (q.2.2 : ℝ) := by exact_mod_cast hb2
  have har : (0 : ℝ) < (p.1 : ℝ) := by exact_mod_cast ha
  have hsbr : (0 : ℝ) < (p.2.1 : ℝ) := by exact_mod_cast hsb
  have hpow1 : (0 : ℝ) < (z + 1) ^ (q.2.1 : ℝ) :=
    Real.rpow_pos_of_pos (by linarith) _
  have hpow2 : (0 : ℝ) < z ^ (p.2.2 : ℝ) := Real.rpow_pos_of_pos hz _
  have hB : (0 : ℝ) < (q.1 : ℝ) * (z + 1) ^ (q.2.1 : ℝ) + (q.2.2 : ℝ) := by
    have := mul_pos hb0r hpow1; linarith
  have hS : (0 : ℝ) < (p.1 : ℝ) / (z ^ (p.2.2 : ℝ) + (p.2.1 : ℝ)) :=
    div_pos har (by linarith)
  have hBS := mul_pos hB hS
  constructor
  · have hratio : (0.2 : ℝ) / dz2 ≤ 0.2 / dz1 :=
      div_le_div_of_nonneg_left (by norm_num) hdz1 hle
    rw [hv1, hv2]
    exact mul_le_mul_of_nonneg_left (Real.sqrt_le_sqrt hratio) (le_of_lt hBS)
  · intro hlt
    have hdz2 : (0 : ℝ) < dz2 := lt_of_lt_of_le hdz1 hle
    have hratio : (0.2 : ℝ) / dz2 < 0.2 / dz1 :=
      div_lt_div_of_pos_left (by norm_num) hdz1 hlt
    have hsq : Real.sqrt (0.2 / dz2) < Real.sqrt (0.2 / dz1) :=
      Real.sqrt_lt_sqrt (le_of_lt (div_pos (by norm_num) hdz2)) hratio
    rw [hv1, hv2]
    exact mul_lt_mul_of_pos_left hsq hBS

/-- C9 witness: the spec's regression pair `deltaRedshift = 0.4`
versus `0.2` at COSMOS, `z = 1`, mass key 9.75. -/
theorem varianceForMass_antitone_witness :
    calc_COSMOS_cosmic_variance 1 0.2 (MassKey.num 9.75) "COSMOS" =
      some ((((0.042 : ℚ) : ℝ) * ((1 : ℝ) + 1) ^ (((3.17 : ℚ)) : ℝ) + ((1.147 : ℚ) : ℝ)) *
        (((0.069 : ℚ) : ℝ) / ((1 : ℝ) ^ (((0.834 : ℚ)) : ℝ) + ((0.234 : ℚ) : ℝ))) *
        Real.sqrt (0.2 / 0.2)) ∧
    calc_COSMOS_cosmic_variance 1 0.4 (MassKey.num 9.75) "COSMOS" =
      some ((((0.042 : ℚ) : ℝ) * ((1 : ℝ) + 1) ^ (((3.17 : ℚ)) : ℝ) + ((1.147 : ℚ) : ℝ)) *
        (((0.069 : ℚ) : ℝ) / ((1 : ℝ) ^ (((0.834 : ℚ)) : ℝ) + ((0.234 : ℚ) : ℝ))) *
        Real.sqrt (0.2 / 0.4)) ∧
    ((((0.042 : ℚ) : ℝ) * ((1 : ℝ) + 1) ^ (((3.17 : ℚ)) : ℝ) + ((1.147 : ℚ) : ℝ)) *
        (((0.069 : ℚ) : ℝ) / ((1 : ℝ) ^ (((0.834 : ℚ)) : ℝ) + ((0.234 : ℚ) : ℝ))) *
        Real.sqrt (0.2 / 0.4) ≤
      (((0.042 : ℚ) : ℝ) * ((1 : ℝ) + 1) ^ (((3.17 : ℚ)) : ℝ) + ((1.147 : ℚ) : ℝ)) *
        (((0.069 : ℚ) : ℝ) / ((1 : ℝ) ^ (((0.834 : ℚ)) : ℝ) + ((0.234 : ℚ) : ℝ))) *
        Real.sqrt (0.2 / 0.2)) := by
  have hq : dict_galaxy_bias_fit_parameters (MassKey.num 9.75) =
      some (0.042, 3.17, 1.147) := by
    norm_num [dict_galaxy_bias_fit_parameters]
  have h1 := calc_eq 1 0.2 (MassKey.num 9.75) (MassKey.num 9.75) "COSMOS"
    (0.069, 0.234, 0.834) (0.042, 3.17, 1.147) rfl (resolve_of_mem hq) hq
  have h2 := calc_eq 1 0.4 (MassKey.num 9.75) (MassKey.num 9.75) "COSMOS"
    (0.069, 0.234, 0.834) (0.042, 3.17, 1.147) rfl (resolve_of_mem hq) hq
  refine ⟨h1, h2, ?_⟩
  exact (varianceForMass_antitone_in_deltaRedshift 1 0.2 0.4 (MassKey.num 9.75)
    "COSMOS" _ _ (by norm_num) (by norm_num) (by norm_num) h1 h2).1

/-- C10: omitting the `survey` argument behaves exactly as passing
`"COSMOS"`, for both functions (the Python default parameter). -/
theorem survey_defaults_to_COSMOS :
    (∀ (z dz : ℝ) (k : MassKey),
      calc_COSMOS_cosmic_variance z dz k = calc_COSMOS_cosmic_variance z dz k "COSMOS") ∧
    ∀ (z dz : ℝ) (ms : List ℚ),
      get_cosmic_variance_array z dz ms = get_cosmic_variance_array z dz ms "COSMOS" :=
  ⟨fun _ _ _ => rfl, fun _ _ _ => rfl⟩

/-- Any bucketed grid value that is an odd quarter (odd `j`, value
`j / 4`) at or above 8.75 lands on a canonical table key: the ">11.0"
threshold above 11.25, one of the six numeric bin centres otherwise. -/
theorem bucket_canonical_aux (mass : ℚ) (j : ℤ) (hodd : j % 2 = 1) (h35 : 35 ≤ j)
    (hg : bucketGrid mass = (j : ℚ) / 4) :
    (bucketMass mass = MassKey.thr thresholdLabel ∨
      ∃ q ∈ float_keys, bucketMass mass = MassKey.num q) ∧
    (dict_galaxy_bias_fit_parameters (bucketMass mass)).isSome ∧
    resolve_mass_key (bucketMass mass) = some (bucketMass mass) := by
  by_cases h45 : 45 < j
  · have hj : (46 : ℚ) ≤ (j : ℚ) := by exact_mod_cast (by omega : (46 : ℤ) ≤ j)
    have hgt : bucketGrid mass > 11.25 := by
      rw [hg]; norm_num; linarith
    have hb : bucketMass mass = MassKey.thr thresholdLabel := by
      unfold bucketMass; rw [if_pos hgt]
    have hd : dict_galaxy_bias_fit_parameters (MassKey.thr thresholdLabel) =
        some (0.185, 2.86, 1.448) := rfl
    rw [hb]
    exact ⟨Or.inl rfl, by rw [hd]; rfl, resolve_of_mem hd⟩
  · push_neg at h45
    have hj : (j : ℚ) ≤ 45 := by exact_mod_cast h45
    have hle : ¬ bucketGrid mass > 11.25 := by
      rw [hg]; norm_num; linarith
    have hb : bucketMass mass = MassKey.num ((j : ℚ) / 4) := by
      unfold bucketMass; rw [if_neg hle, hg]
    rw [hb]
    interval_cases j <;>
      first
        | exact absurd hodd (by decide)
        | exact ⟨Or.inr ⟨_, by norm_num [float_keys], rfl⟩,
            by norm_num [dict_galaxy_bias_fit_parameters],
            resolve_of_isSome (by norm_num [dict_galaxy_bias_fit_parameters])⟩

/-- C2 (amended): every element of `massValues` that is an integer
multiple of 0.25 and at least 8.75 is bucketed onto a canonical key of
the bias table - one of the six numeric bin centres 8.75..11.25, or the
">11.0" threshold - so the subsequent `varianceForMass` call resolves
the key directly and never takes the nearest-key fallback path. -/
theorem bucket_canonical_on_quarter_grid (k : ℤ) (hk : 35 ≤ k) :
    (bucketMass ((k : ℚ) / 4) = MassKey.thr thresholdLabel ∨
      ∃ q ∈ float_keys, bucketMass ((k : ℚ) / 4) = MassKey.num q) ∧
    (dict_galaxy_bias_fit_parameters (bucketMass ((k : ℚ) / 4))).isSome ∧
    resolve_mass_key (bucketMass ((k : ℚ) / 4)) = some (bucketMass ((k : ℚ) / 4)) := by
  have hg := bucketGrid_at_quarter k
  by_cases hpar : k % 2 = 0
  · rw [if_pos hpar] at hg
    have hcast : ((k : ℚ) - 1) / 4 = ((k - 1 : ℤ) : ℚ) / 4 := by push_cast; ring
    rw [hcast] at hg
    exact bucket_canonical_aux _ (k - 1) (by omega) (by omega) hg
  · rw [if_neg hpar] at hg
    exact bucket_canonical_aux _ k (by omega) (by omega) hg

/-- C2 witness: the quarter-grid element 10.0 (`k = 40`). -/
theorem bucket_canonical_on_quarter_grid_witness :
    (35 : ℤ) ≤ 40 ∧
    ((bucketMass (((40 : ℤ) : ℚ) / 4) = MassKey.thr thresholdLabel ∨
      ∃ q ∈ float_keys, bucketMass (((40 : ℤ) : ℚ) / 4) = MassKey.num q) ∧
    (dict_galaxy_bias_fit_parameters (bucketMass (((40 : ℤ) : ℚ) / 4))).isSome ∧
    resolve_mass_key (bucketMass (((40 : ℤ) : ℚ) / 4)) =
      some (bucketMass (((40 : ℤ) : ℚ) / 4))) :=
  ⟨by omega, bucket_canonical_on_quarter_grid 40 (by omega)⟩

/-- C2 counterexample: the element 8.0 is bucketed to 7.75, which is
not a key of the bias table (the numeric keys start at 8.75), so the
subsequent `varianceForMass` call does take the nearest-key fallback
(to 8.75).  The claim "for every element of massValues" is therefore
false as stated. -/
theorem bucket_not_canonical_at_8 :
    bucketGrid 8 = 7.75 ∧
    bucketMass 8 = MassKey.num 7.75 ∧
    dict_galaxy_bias_fit_parameters (MassKey.num 7.75) = none ∧
    resolve_mass_key (MassKey.num 7.75) = some (MassKey.num 8.75) := by
  have h : bucketGrid 8 = 7.75 := by
    norm_num [bucketGrid, pyRound, pyMod, pyFloorDiv, roundHalfEven]
  have hd : dict_galaxy_bias_fit_parameters (MassKey.num 7.75) = none := by
    norm_num [dict_galaxy_bias_fit_parameters]
  have hb : bucketMass 8 = MassKey.num 7.75 := by
    unfold bucketMass
    rw [h]
    norm_num
  have hn : nearest_float_key 7.75 = 8.75 := by
    norm_num [nearest_float_key, float_keys, List.foldl, abs]
  have hr : resolve_mass_key (MassKey.num 7.75) = some (MassKey.num 8.75) := by
    simp [resolve_mass_key, hd, hn]
  exact ⟨h, hb, hd, hr⟩

/-- C5: when a numeric mass key is absent from the bias table, the
fallback resolves to one of the six numeric bin centres, never to a
threshold label (the search list holds only the six float keys). -/
theorem fallback_resolves_to_numeric_bin (m : ℚ)
    (h : dict_galaxy_bias_fit_parameters (MassKey.num m) = none) :
    nearest_float_key m ∈ float_keys ∧
    resolve_mass_key (MassKey.num m) = some (MassKey.num (nearest_float_key m)) := by
  constructor
  · unfold nearest_float_key
    simp only [float_keys, List.foldl]
    split_ifs <;> norm_num [float_keys]
  · simp [resolve_mass_key, h]

/-- C5 witness: mass 5.0 is absent from the table; the fallback lands
on a numeric bin centre. -/
theorem fallback_resolves_to_numeric_bin_witness :
    dict_galaxy_bias_fit_parameters (MassKey.num 5) = none ∧
    (nearest_float_key 5 ∈ float_keys ∧
      resolve_mass_key (MassKey.num 5) = some (MassKey.num (nearest_float_key 5))) :=
  ⟨by norm_num [dict_galaxy_bias_fit_parameters],
    fallback_resolves_to_numeric_bin 5 (by norm_num [dict_galaxy_bias_fit_parameters])⟩

/-- C6: any mass whose bucketed value exceeds 11.25 resolves to the
">11.0" threshold key, whose bias parameters are `b0 = 0.185`,
`b1 = 2.86`, `b2 = 1.448`, and the variance is computed with exactly
those parameters. -/
theorem bucket_overflow_uses_threshold_params (m : ℚ) (h : bucketGrid m > 11.25)
    (z dz : ℝ) (s : String) (p : ℚ × ℚ × ℚ)
    (hs : survey_fit_parameters s = some p) :
    bucketMass m = MassKey.thr thresholdLabel ∧
    dict_galaxy_bias_fit_parameters (bucketMass m) = some (0.185, 2.86, 1.448) ∧
    calc_COSMOS_cosmic_variance z dz (bucketMass m) s =
      some ((((0.185 : ℚ) : ℝ) * (z + 1) ^ (((2.86 : ℚ)) : ℝ) + ((1.448 : ℚ) : ℝ)) *
        ((p.1 : ℝ) / (z ^ (p.2.2 : ℝ) + (p.2.1 : ℝ))) * Real.sqrt (0.2 / dz)) := by
  have hb : bucketMass m = MassKey.thr thresholdLabel := by
    unfold bucketMass; rw [if_pos h]
  have hd : dict_galaxy_bias_fit_parameters (MassKey.thr thresholdLabel) =
      some (0.185, 2.86, 1.448) := rfl
  refine ⟨hb, by rw [hb]; exact hd, ?_⟩
  rw [hb]
  exact calc_eq z dz _ _ s p (0.185, 2.86, 1.448) hs (resolve_of_mem hd) hd

/-- C6 witness: mass 12.0 buckets to 11.75 > 11.25; COSMOS at `z = 1`,
`dz = 0.2`. -/
theorem bucket_overflow_witness :
    bucketGrid 12 > 11.25 ∧
    survey_fit_parameters "COSMOS" = some (0.069, 0.234, 0.834) ∧
    (bucketMass 12 = MassKey.thr thresholdLabel ∧
      dict_galaxy_bias_fit_parameters (bucketMass 12) = some (0.185, 2.86, 1.448) ∧
      calc_COSMOS_cosmic_variance 1 0.2 (bucketMass 12) "COSMOS" =
        some ((((0.185 : ℚ) : ℝ) * ((1 : ℝ) + 1) ^ (((2.86 : ℚ)) : ℝ) + ((1.448 : ℚ) : ℝ)) *
          (((0.069 : ℚ) : ℝ) / ((1 : ℝ) ^ (((0.834 : ℚ)) : ℝ) + ((0.234 : ℚ) : ℝ))) *
          Real.sqrt (0.2 / 0.2))) := by
  have h : bucketGrid 12 > 11.25 := by
    norm_num [bucketGrid, pyRound, pyMod, pyFloorDiv, roundHalfEven]
  exact ⟨h, rfl,
    bucket_overflow_uses_threshold_params 12 h 1 0.2 "COSMOS" (0.069, 0.234, 0.834) rfl⟩

/-- C7: an `N`-element mass array yields an `N`-element result in the
same order, element `i` being `varianceForMass` applied to the bucketed
`massValues[i]`; each element is processed independently. -/
theorem array_preserves_length_and_order (z dz : ℝ) (ms : List ℚ) (s : String)
    (out : List ℝ) (h : get_cosmic_variance_array z dz ms s = some out) :
    out.length = ms.length ∧
    ∀ i, i < ms.length →
      ∃ m v, ms.get? i = some m ∧ out.get? i = some v ∧
        calc_COSMOS_cosmic_variance z dz (bucketMass m) s = some v := by
  induction ms generalizing out with
  | nil =>
    unfold get_cosmic_variance_array mapOptionList at h
    simp only [Option.some.injEq] at h
    subst h
    exact ⟨rfl, fun i hi => absurd hi (by simp)⟩
  | cons a rest ih =>
    unfold get_cosmic_variance_array mapOptionList at h
    cases hv : calc_COSMOS_cosmic_variance z dz (bucketMass a) s with
    | none => rw [hv] at h; simp at h
    | some v =>
      rw [hv, Option.some_bind] at h
      cases hrest : mapOptionList
          (fun mass => calc_COSMOS_cosmic_variance z dz (bucketMass mass) s) rest with
      | none => rw [hrest] at h; simp at h
      | some vs =>
        rw [hrest] at h
        simp only [Option.map_some', Option.some.injEq] at h
        subst h
        obtain ⟨hlen, hidx⟩ := ih vs hrest
        refine ⟨by simp [hlen], fun i hi => ?_⟩
        cases i with
        | zero => exact ⟨a, v, rfl, rfl, hv⟩
        | succ n =>
          have hn : n < rest.length := by simpa using hi
          obtain ⟨m, w, hm, hw, hc⟩ := hidx n hn
          exact ⟨m, w, hm, hw, hc⟩

/-- C7 witness: the one-element array `[9.75]` at COSMOS, `z = 1`,
`dz = 0.2`. -/
theorem array_preserves_length_witness :
    get_cosmic_variance_array 1 0.2 [9.75] "COSMOS" =
      some [(((0.042 : ℚ) : ℝ) * ((1 : ℝ) + 1) ^ (((3.17 : ℚ)) : ℝ) + ((1.147 : ℚ) : ℝ)) *
        (((0.069 : ℚ) : ℝ) / ((1 : ℝ) ^ (((0.834 : ℚ)) : ℝ) + ((0.234 : ℚ) : ℝ))) *
        Real.sqrt (0.2 / 0.2)] ∧
    ([(((0.042 : ℚ) : ℝ) * ((1 : ℝ) + 1) ^ (((3.17 : ℚ)) : ℝ) + ((1.147 : ℚ) : ℝ)) *
        (((0.069 : ℚ) : ℝ) / ((1 : ℝ) ^ (((0.834 : ℚ)) : ℝ) + ((0.234 : ℚ) : ℝ))) *
        Real.sqrt (0.2 / 0.2)].length = ([(9.75 : ℚ)]).length ∧
      ∀ i, i < ([(9.75 : ℚ)]).length →
        ∃ m v, ([(9.75 : ℚ)]).get? i = some m ∧
          ([(((0.042 : ℚ) : ℝ) * ((1 : ℝ) + 1) ^ (((3.17 : ℚ)) : ℝ) + ((1.147 : ℚ) : ℝ)) *
            (((0.069 : ℚ) : ℝ) / ((1 : ℝ) ^ (((0.834 : ℚ)) : ℝ) + ((0.234 : ℚ) : ℝ))) *
            Real.sqrt (0.2 / 0.2)]).get? i = some v ∧
          calc_COSMOS_cosmic_variance 1 0.2 (bucketMass m) "COSMOS" = some v) := by
  have hbk : bucketMass 9.75 = MassKey.num 9.75 := by
    norm_num [bucketMass, bucketGrid, pyRound, pyMod, pyFloorDiv, roundHalfEven]
  have hq : dict_galaxy_bias_fit_parameters (MassKey.num 9.75) =
      some (0.042, 3.17, 1.147) := by
    norm_num [dict_galaxy_bias_fit_parameters]
  have hc := calc_eq 1 0.2 (MassKey.num 9.75) (MassKey.num 9.75) "COSMOS"
    (0.069, 0.234, 0.834) (0.042, 3.17, 1.147) rfl (resolve_of_mem hq) hq
  have hh : get_cosmic_variance_array 1 0.2 [9.75] "COSMOS" =
      some [(((0.042 : ℚ) : ℝ) * ((1 : ℝ) + 1) ^ (((3.17 : ℚ)) : ℝ) + ((1.147 : ℚ) : ℝ)) *
        (((0.069 : ℚ) : ℝ) / ((1 : ℝ) ^ (((0.834 : ℚ)) : ℝ) + ((0.234 : ℚ) : ℝ))) *
        Real.sqrt (0.2 / 0.2)] := by
    unfold get_cosmic_variance_array mapOptionList
    rw [hbk, hc]
    rfl
  exact ⟨hh, array_preserves_length_and_order 1 0.2 [9.75] "COSMOS" _ hh⟩

/-- C8: the bucketing transform is the identity on each of the six
numeric table keys (no drift from the round/floor steps). -/
theorem bucket_idempotent_on_keys (m : ℚ) (h : m ∈ float_keys) :
    bucketGrid m = m ∧ bucketMass m = MassKey.num m := by
  fin_cases h <;> constructor <;>
    norm_num [bucketMass, bucketGrid, pyRound, pyMod, pyFloorDiv, roundHalfEven]

/-- C8 witness: the spec's example `m = 10.25`. -/
theorem bucket_idempotent_witness :
    (10.25 : ℚ) ∈ float_keys ∧
    (bucketGrid (10.25 : ℚ) = 10.25 ∧ bucketMass (10.25 : ℚ) = MassKey.num 10.25) :=
  ⟨by norm_num [float_keys],
    bucket_idempotent_on_keys 10.25 (by norm_num [float_keys])⟩
